import Mathlib

/-!
Shallow embedding of the courier provider abstraction layer of the
Zid shipping challenge repository (src/core): unified DTOs, the shared
base validation, the MockCourier simulation adapter, the SMSACourier
SOAP adapter and the CourierFactory registry.

Conventions of the embedding:
* Python `str` is `String`; a falsy string (`not s`) is `s = ""`.
* Python `float` amounts are `ℚ` (the claims only exercise values where
  float and rational arithmetic agree).
* `datetime.now()` and `uuid.uuid4()` are effects: each embedded
  operation takes the produced value (a tick `now : Nat`, a formatted
  time string, a hex fragment) as an explicit argument.
* The mock adapter's in-memory `_shipments` dict is an association list
  threaded through the operations; dict assignment is insertion at the
  front, dict mutation of one entry is a keyed map.
* Fallible paths (`raise`, caught exceptions) are `Except String`.
-/

namespace Zid

/-- `core/enums.py UnifiedStatus` (a `str` enum). -/
inductive UnifiedStatus
  | PENDING
  | CREATED
  | CONFIRMED
  | PICKED_UP
  | IN_TRANSIT
  | OUT_FOR_DELIVERY
  | DELIVERED
  | FAILED_DELIVERY
  | RETURNED
  | CANCELLED
  | EXCEPTION
  | LOST
  | DAMAGED
  deriving DecidableEq, Repr, Fintype

namespace UnifiedStatus

/-- The `str` value of each member (identical to its Python name). -/
def value : UnifiedStatus → String
  | .PENDING => "PENDING"
  | .CREATED => "CREATED"
  | .CONFIRMED => "CONFIRMED"
  | .PICKED_UP => "PICKED_UP"
  | .IN_TRANSIT => "IN_TRANSIT"
  | .OUT_FOR_DELIVERY => "OUT_FOR_DELIVERY"
  | .DELIVERED => "DELIVERED"
  | .FAILED_DELIVERY => "FAILED_DELIVERY"
  | .RETURNED => "RETURNED"
  | .CANCELLED => "CANCELLED"
  | .EXCEPTION => "EXCEPTION"
  | .LOST => "LOST"
  | .DAMAGED => "DAMAGED"

/-- Every member of the enum, in declaration order. -/
def members : List UnifiedStatus :=
  [.PENDING, .CREATED, .CONFIRMED, .PICKED_UP, .IN_TRANSIT, .OUT_FOR_DELIVERY,
   .DELIVERED, .FAILED_DELIVERY, .RETURNED, .CANCELLED, .EXCEPTION, .LOST, .DAMAGED]

/-- Python `UnifiedStatus(s)`: value lookup; `none` models the `ValueError`. -/
def ofValue? (s : String) : Option UnifiedStatus :=
  members.find? (fun u => u.value == s)

end UnifiedStatus

/-- Python `needle in haystack` on strings (substring containment). -/
def strContains (haystack needle : String) : Bool :=
  decide (List.IsInfix needle.toList haystack.toList)

/-- ASCII upper-casing of one character (every string the code
case-converts is ASCII). -/
def charUpper (c : Char) : Char :=
  if 'a' ≤ c ∧ c ≤ 'z' then Char.ofNat (c.toNat - 32) else c

/-- ASCII lower-casing of one character. -/
def charLower (c : Char) : Char :=
  if 'A' ≤ c ∧ c ≤ 'Z' then Char.ofNat (c.toNat + 32) else c

/-- Python `s.upper()`. -/
def strUpper (s : String) : String := String.mk (s.data.map charUpper)

/-- Python `s.lower()`. -/
def strLower (s : String) : String := String.mk (s.data.map charLower)

/-- `core/dtos.py Address`. -/
structure Address where
  name : String
  address_line1 : String
  city : String
  country : String
  phone : String
  postal_code : String := ""
  address_line2 : String := ""
  email : String := ""
  id_no : String := ""
  po_box : String := ""
  phone2 : String := ""
  deriving DecidableEq, Repr

/-- `core/dtos.py PackageDetails`. -/
structure PackageDetails where
  weight : ℚ
  description : String
  length : ℚ := 0
  width : ℚ := 0
  height : ℚ := 0
  value : ℚ := 0
  pieces : Nat := 1
  deriving DecidableEq, Repr

/-- `core/dtos.py ShipmentRequest` (the open-ended metadata map is omitted:
no courier code reads it). -/
structure ShipmentRequest where
  reference_number : String
  sender : Address
  recipient : Address
  package : PackageDetails
  priority : String := "STANDARD"
  service_type : String := ""
  special_instructions : String := ""
  cod_amount : ℚ := 0
  cod_currency : String := "SAR"
  insurance_amount : ℚ := 0
  preferred_delivery_date : String := ""
  return_required : Bool := false
  deriving DecidableEq, Repr

/-- `core/dtos.py ShipmentResponse` (the `estimated_delivery_date` datetime
is modelled as an optional tick; `courier_data` is dropped: opaque map). -/
structure ShipmentResponse where
  success : Bool
  waybill_number : String
  tracking_number : String
  reference_number : String
  courier_provider : String
  service_type : String := ""
  estimated_delivery_date : Option Nat := none
  cost : ℚ := 0
  currency : String := "SAR"
  label_url : String := ""
  label_data : String := ""
  errors : List String := []
  warnings : List String := []
  deriving DecidableEq, Repr

/-- `core/dtos.py TrackingEvent` (timestamp as a tick). -/
structure TrackingEvent where
  timestamp : Nat
  status : String
  description : String
  location : String := ""
  details : String := ""
  raw_status : String := ""
  deriving DecidableEq, Repr

/-- `core/dtos.py TrackingResponse`. -/
structure TrackingResponse where
  success : Bool
  waybill_number : String
  tracking_number : String
  status : String
  status_description : String
  last_updated : Nat
  estimated_delivery_date : Option Nat := none
  location : String := ""
  events : List TrackingEvent := []
  errors : List String := []
  deriving DecidableEq, Repr

/-- `core/dtos.py CancelResponse`. -/
structure CancelResponse where
  success : Bool
  waybill_number : String
  cancellation_id : String := ""
  refund_amount : ℚ := 0
  currency : String := "SAR"
  errors : List String := []
  deriving DecidableEq, Repr

/-- `core/dtos.py LabelResponse`. -/
structure LabelResponse where
  success : Bool
  waybill_number : String
  label_url : String := ""
  label_data : String := ""
  format : String := "PDF"
  errors : List String := []
  deriving DecidableEq, Repr

namespace CourierBase

/-- `CourierBase.validate_shipment_request` (base.py lines 96-133), the
shared base rules. The Python builds `errors` by sequential
`errors.append(...)` under one `if` per clause; that is rendered here as
the concatenation of the thirteen conditional singletons in source
order, which yields the identical list. -/
def validate_shipment_request (request : ShipmentRequest) : List String :=
  (if request.reference_number = "" then ["Reference number is required"] else []) ++
  (if request.sender.name = "" then ["Sender name is required"] else []) ++
  (if request.sender.address_line1 = "" then ["Sender address is required"] else []) ++
  (if request.sender.city = "" then ["Sender city is required"] else []) ++
  (if request.sender.country = "" then ["Sender country is required"] else []) ++
  (if request.sender.phone = "" then ["Sender phone is required"] else []) ++
  (if request.recipient.name = "" then ["Recipient name is required"] else []) ++
  (if request.recipient.address_line1 = "" then ["Recipient address is required"] else []) ++
  (if request.recipient.city = "" then ["Recipient city is required"] else []) ++
  (if request.recipient.country = "" then ["Recipient country is required"] else []) ++
  (if request.recipient.phone = "" then ["Recipient phone is required"] else []) ++
  (if request.package.weight = 0 ∨ request.package.weight ≤ 0 then
    ["Package weight must be greater than 0"] else []) ++
  (if request.package.description = "" then ["Package description is required"] else [])

/-- `CourierBase._validate_config` (base.py lines 41-46): `api_key` and
`base_url` must be present and truthy. A config is a flat string map. -/
def validate_config (config : List (String × String)) : Except String Unit :=
  if (config.lookup "api_key").getD "" = "" then .error "API key is required"
  else if (config.lookup "base_url").getD "" = "" then .error "Base URL is required"
  else .ok ()

end CourierBase

/-- One entry of the mock adapter's `_shipments[waybill]["events"]` list. -/
structure StoredEvent where
  timestamp : Nat
  status : String
  description : String
  location : String := ""
  deriving DecidableEq, Repr

/-- One value of the mock adapter's `_shipments` dict. -/
structure StoredShipment where
  request : ShipmentRequest
  status : String
  created_at : Nat
  events : List StoredEvent
  deriving DecidableEq, Repr

/-- The mock adapter's in-memory `_shipments` dict, as an association list
where `lookup` sees the most recent binding first. -/
abbrev MockStore := List (String × StoredShipment)

/-- Dict assignment `_shipments[waybill] = entry`. -/
def storeInsert (k : String) (v : StoredShipment) (s : MockStore) : MockStore :=
  (k, v) :: s

/-- In-place mutation of the entry at key `k`. -/
def storeUpdate (k : String) (f : StoredShipment → StoredShipment) (s : MockStore) : MockStore :=
  s.map (fun p => if p.1 = k then (p.1, f p.2) else p)

namespace MockCourier

/-- `MockCourier.get_provider_name` (mock.py line 37). -/
def get_provider_name : String := "MOCK"

/-- `MockCourier.get_supported_features` (mock.py line 40). -/
def get_supported_features : List String :=
  ["cancellation", "cod", "insurance", "signature_required", "express", "tracking"]

/-- `MockCourier.map_status` (mock.py lines 43-47): exact value lookup on
the upper-cased input, `ValueError` caught to EXCEPTION. -/
def map_status (raw_status : String) : UnifiedStatus :=
  match UnifiedStatus.ofValue? (strUpper raw_status) with
  | some u => u
  | none => UnifiedStatus.EXCEPTION

/-- The waybill built at mock.py line 63 from `datetime.now().strftime(...)`
and `uuid.uuid4().hex[:4].upper()`, both passed in as the values those
effects produced. -/
def waybillGen (nowStr hexFrag : String) : String :=
  "MOCK" ++ nowStr ++ strUpper hexFrag

/-- `MockCourier.create_shipment` (mock.py lines 49-95). `now` is the tick
`datetime.now()` returned, `nowStr`/`hexFrag` feed the waybill generator. -/
def create_shipment (store : MockStore) (request : ShipmentRequest)
    (now : Nat) (nowStr hexFrag : String) : ShipmentResponse × MockStore :=
  let errors := CourierBase.validate_shipment_request request
  if errors ≠ [] then
    ({ success := false
       waybill_number := ""
       tracking_number := ""
       reference_number := request.reference_number
       courier_provider := get_provider_name
       errors := errors }, store)
  else
    let waybill := waybillGen nowStr hexFrag
    let entry : StoredShipment :=
      { request := request
        status := UnifiedStatus.CREATED.value
        created_at := now
        events := [{ timestamp := now
                     status := UnifiedStatus.CREATED.value
                     description := "Shipment created successfully"
                     location := request.sender.city }] }
    ({ success := true
       waybill_number := waybill
       tracking_number := waybill
       reference_number := request.reference_number
       courier_provider := get_provider_name
       service_type := "MOCK_EXPRESS"
       estimated_delivery_date := some (now + 3)
       cost := 50
       currency := "SAR"
       label_url := "https://mock-courier.example.com/labels/" ++ waybill ++ ".pdf"
       label_data := "JVBERi0xLjQKMSAwIG9iago8PC9UeXBlL1BhZ2VzL0tpZHNbXC9Db3VudCAwPj4KZW5kb2Jq" },
     storeInsert waybill entry store)

/-- `MockCourier.track_shipment` (mock.py lines 97-155). -/
def track_shipment (store : MockStore) (waybill_number : String)
    (now : Nat) : TrackingResponse :=
  match store.lookup waybill_number with
  | none =>
    { success := true
      waybill_number := waybill_number
      tracking_number := waybill_number
      status := UnifiedStatus.IN_TRANSIT.value
      status_description := "Package is in transit"
      last_updated := now
      events :=
        [{ timestamp := now - 2
           status := UnifiedStatus.CREATED.value
           raw_status := "CREATED"
           description := "Shipment created"
           location := "Riyadh" },
         { timestamp := now - 1
           status := UnifiedStatus.PICKED_UP.value
           raw_status := "PICKED_UP"
           description := "Package picked up by courier"
           location := "Riyadh Hub" },
         { timestamp := now
           status := UnifiedStatus.IN_TRANSIT.value
           raw_status := "IN_TRANSIT"
           description := "Package in transit to destination"
           location := "In Transit" }] }
  | some shipment_data =>
    { success := true
      waybill_number := waybill_number
      tracking_number := waybill_number
      status := shipment_data.status
      status_description := "Current status: " ++ shipment_data.status
      last_updated := now
      events := shipment_data.events.map (fun evt =>
        { timestamp := evt.timestamp
          status := evt.status
          raw_status := evt.status
          description := evt.description
          location := evt.location }) }

/-- The mutation mock.py lines 160-166 apply to the stored entry of a
known waybill: status set to CANCELLED and one cancellation event
appended, whose description carries the reason (or the default phrase
for a falsy reason, per `reason or 'No reason provided'`). -/
def cancelUpdate (reason : String) (now : Nat) (sd : StoredShipment) :
    StoredShipment :=
  { sd with
    status := UnifiedStatus.CANCELLED.value
    events := sd.events ++
      [{ timestamp := now
         status := UnifiedStatus.CANCELLED.value
         description := "Shipment cancelled. Reason: " ++
           (if reason = "" then "No reason provided" else reason)
         location := "" }] }

/-- `MockCourier.cancel_shipment` (mock.py lines 157-174). `hexFrag8` is
the value `uuid.uuid4().hex[:8]` produced. -/
def cancel_shipment (store : MockStore) (waybill_number : String)
    (reason : String) (now : Nat) (hexFrag8 : String) :
    CancelResponse × MockStore :=
  let store' :=
    if (store.lookup waybill_number).isSome then
      storeUpdate waybill_number (cancelUpdate reason now) store
    else store
  ({ success := true
     waybill_number := waybill_number
     cancellation_id := "CANCEL-" ++ strUpper hexFrag8
     refund_amount := 25
     currency := "SAR" }, store')

/-- `MockCourier.print_label` (mock.py lines 176-184). -/
def print_label (waybill_number : String) : LabelResponse :=
  { success := true
    waybill_number := waybill_number
    label_url := "https://mock-courier.example.com/labels/" ++ waybill_number ++ ".pdf"
    label_data := "JVBERi0xLjQKMSAwIG9iago8PC9UeXBlL1BhZ2VzL0tpZHNbXC9Db3VudCAwPj4KZW5kb2Jq"
    format := "PDF" }

end MockCourier

/-- Python's str() of an optional element text: `None` prints as "None". -/
def pyStrOpt : Option String → String
  | none => "None"
  | some t => t

/-- Instance attributes of an `SMSACourier` after `__init__` (smsa.py
lines 43-51). `is_initialized` is the `CourierBase` readiness flag. -/
structure SMSAState where
  pass_key : String
  base_url : String
  is_initialized : Bool
  deriving DecidableEq, Repr

/-- Outcome of the remote SOAP exchange of `create_shipment`: either some
exception escaped `http_client.post` / `raise_for_status` / XML parsing
(caught at smsa.py line 173), or the reply parsed and the
`addShipPDFResult` element's text was `result_text` (`none` when the
element is absent or empty). -/
inductive SMSARemote
  | exn (msg : String)
  | reply (result_text : Option String)
  deriving DecidableEq, Repr

namespace SMSACourier

/-- `SMSACourier.STATUS_MAP` (smsa.py lines 34-41), in insertion order. -/
def STATUS_MAP : List (String × UnifiedStatus) :=
  [("Data Received", .CREATED),
   ("In Transit", .IN_TRANSIT),
   ("Out for Delivery", .OUT_FOR_DELIVERY),
   ("Delivered", .DELIVERED),
   ("Returned", .RETURNED),
   ("Canceled", .CANCELLED)]

/-- `SMSACourier.__init__` (smsa.py lines 43-51): the base constructor
runs `_validate_config` (not overridden by SMSA), then the attributes are
read from the config with defaults. -/
def construct (config : List (String × String)) : Except String SMSAState :=
  match CourierBase.validate_config config with
  | .error e => .error e
  | .ok _ =>
    .ok { pass_key := (config.lookup "api_key").getD "testing0"
          base_url := (config.lookup "base_url").getD
            "https://track.smsaexpress.com/SECOM/SMSAwebService.asmx"
          is_initialized := true }

/-- `SMSACourier.get_provider_name` (smsa.py line 53). -/
def get_provider_name : String := "SMSA"

/-- `SMSACourier.get_supported_features` (smsa.py line 56). -/
def get_supported_features : List String :=
  ["cancellation", "cod", "insurance", "tracking"]

/-- `SMSACourier.map_status` (smsa.py lines 59-64): first STATUS_MAP key
whose lower-casing is a substring of the lower-cased input, else the
IN_TRANSIT default fallthrough. -/
def map_status (raw_status : String) : UnifiedStatus :=
  match STATUS_MAP.find? (fun kv => strContains (strLower raw_status) (strLower kv.1)) with
  | some kv => kv.2
  | none => UnifiedStatus.IN_TRANSIT

/-- `SMSACourier` does not override `validate_shipment_request`; instance
lookup resolves it to the inherited `CourierBase` method. -/
def validate_shipment_request (request : ShipmentRequest) : List String :=
  CourierBase.validate_shipment_request request

/-- `SMSACourier.create_shipment` (smsa.py lines 66-182). The second
component of the result is the list of SOAP actions posted to the remote
system during the call (the `http_client.post` at line 127 always runs
once the `_ensure_initialized` guard passes: no validation precedes it).
`Except.error` models the uncaught `RuntimeError` of that guard. -/
def create_shipment (st : SMSAState) (request : ShipmentRequest)
    (remote : SMSARemote) : Except String (ShipmentResponse × List String) :=
  if ¬ st.is_initialized then
    .error "Courier not initialized. Call initialize() first."
  else
    let wire := ["addShipPDF"]
    match remote with
    | .exn e =>
      .ok ({ success := false
             waybill_number := ""
             tracking_number := ""
             reference_number := request.reference_number
             courier_provider := "SMSA"
             errors := [e] }, wire)
    | .reply result_text =>
      let failed := match result_text with
        | none => true
        | some t => t = "" ∨ strContains t "Failed"
      if failed then
        .ok ({ success := false
               waybill_number := ""
               tracking_number := ""
               reference_number := request.reference_number
               courier_provider := "SMSA"
               errors := ["SMSA API Error: " ++ pyStrOpt result_text] }, wire)
      else
        let awb := (result_text).getD ""
        .ok ({ success := true
               waybill_number := awb
               tracking_number := awb
               reference_number := request.reference_number
               courier_provider := "SMSA"
               cost := 0
               currency := "SAR"
               label_url := "https://track.smsaexpress.com/getPDF.aspx?awb=" ++ awb
               label_data := "" }, wire)

/-- `SMSACourier.track_shipment` (smsa.py lines 184-229): the reply is
never parsed; any completed call yields a synthetic IN_TRANSIT success. -/
def track_shipment (st : SMSAState) (waybill_number : String)
    (remote : Option String) (now : Nat) : Except String TrackingResponse :=
  if ¬ st.is_initialized then
    .error "Courier not initialized. Call initialize() first."
  else
    match remote with
    | some e =>
      .ok { success := false
            waybill_number := waybill_number
            tracking_number := waybill_number
            status := UnifiedStatus.EXCEPTION.value
            status_description := e
            last_updated := now
            errors := [e] }
    | none =>
      .ok { success := true
            waybill_number := waybill_number
            tracking_number := waybill_number
            status := UnifiedStatus.IN_TRANSIT.value
            status_description := "Shipment In Transit (Real API Called)"
            last_updated := now
            events := [] }

/-- Outcome of the remote exchange of `cancel_shipment`: an escaped
exception, or a parsed reply where `found` is the `cancelShipmentResult`
element (`none` when absent, otherwise its optional text). -/
inductive SMSACancelRemote
  | exn (msg : String)
  | reply (found : Option (Option String))
  deriving DecidableEq, Repr

/-- `SMSACourier.cancel_shipment` (smsa.py lines 231-275). -/
def cancel_shipment (st : SMSAState) (waybill_number : String)
    (_reason : String) (remote : SMSACancelRemote) :
    Except String CancelResponse :=
  if ¬ st.is_initialized then
    .error "Courier not initialized. Call initialize() first."
  else
    match remote with
    | .exn e =>
      .ok { success := false
            waybill_number := waybill_number
            errors := [e] }
    | .reply found =>
      let result_text : Option String := match found with
        | none => some "Failed"
        | some t => t
      .ok { success := strContains ((result_text).getD "") "Successfully"
            waybill_number := waybill_number
            cancellation_id := (result_text).getD ""
            refund_amount := 0
            currency := "SAR" }

/-- `SMSACourier.print_label` (smsa.py lines 277-284): no initialization
guard, no remote call; a constructed public URL with success=True. -/
def print_label (waybill_number : String) : LabelResponse :=
  { success := true
    waybill_number := waybill_number
    label_url := "https://track.smsaexpress.com/getPDF.aspx?awb=" ++ waybill_number
    label_data := "" }

end SMSACourier

/-- The mutable class-level state of `CourierFactory` (factory.py lines
22-27): the type registry keyed by upper-cased identifier and the
instance cache. Constructed adapter instances are abstracted to tokens
allocated from `next_id`, so reference identity is token equality;
construction with the factory's default config always succeeds
(`_get_default_config` supplies truthy `api_key` and `base_url` for every
provider, `MockCourier._validate_config` accepts anything, and the SMSA
base validation only requires those two keys). -/
structure FactoryState where
  registry : List String
  instances : List (String × Nat)
  next_id : Nat
  deriving DecidableEq, Repr

namespace CourierFactory

/-- The initial `_registry` (factory.py lines 22-25). -/
def initialRegistry : List String := ["SMSA", "MOCK"]

/-- `CourierFactory.get_courier` (factory.py lines 36-68): cached instance
returned when present and no config override; otherwise construct from
the registry (error listing availability when unregistered) and replace
the cache entry. -/
def get_courier (st : FactoryState) (provider : String)
    (config : Option (List (String × String))) :
    Except String (Nat × FactoryState) :=
  let provider_upper := strUpper provider
  match st.instances.lookup provider_upper, config with
  | some inst, none => .ok (inst, st)
  | _, _ =>
    if provider_upper ∈ st.registry then
      .ok (st.next_id,
        { st with
          instances := (provider_upper, st.next_id) :: st.instances
          next_id := st.next_id + 1 })
    else
      .error ("Unknown courier provider: " ++ provider)

/-- `CourierFactory.get_best_courier` (factory.py lines 96-130). -/
def get_best_courier (st : FactoryState) (origin destination : String)
    (_weight : ℚ) (_priority : String) : Except String String :=
  if origin = "SA" ∧ destination = "SA" ∧ "SMSA" ∈ st.registry then
    .ok "SMSA"
  else if "MOCK" ∈ st.registry then
    .ok "MOCK"
  else
    match st.registry with
    | p :: _ => .ok p
    | [] => .error "No courier providers available"

end CourierFactory

/-- Instance state relevant to the `CourierBase` lifecycle (base.py lines
28-51): the readiness flag plus the only mutable data any operation
touches (the mock adapter's shipment dict). -/
structure CourierInstanceState where
  is_initialized : Bool
  store : MockStore
  deriving DecidableEq, Repr

namespace CourierBase

/-- `CourierBase.__init__` (base.py lines 28-39): `is_initialized` starts
False, the (possibly overridden) `_validate_config` runs, and only then is
the flag set True; a validation exception aborts construction. `validate`
is the dynamic `_validate_config` of the concrete class. -/
def construct (validate : List (String × String) → Except String Unit)
    (config : List (String × String)) : Except String CourierInstanceState :=
  let st0 : CourierInstanceState := { is_initialized := false, store := [] }
  match validate config with
  | .error e => .error e
  | .ok _ => .ok { st0 with is_initialized := true }

/-- `MockCourier._validate_config` (mock.py lines 33-35): accepts any
config. -/
def mock_validate_config (_config : List (String × String)) :
    Except String Unit := .ok ()

/-- `CourierBase._ensure_initialized` (base.py lines 48-51). -/
def ensure_initialized (st : CourierInstanceState) : Except String Unit :=
  if ¬ st.is_initialized then
    .error "Courier not initialized. Call initialize() first."
  else .ok ()

end CourierBase

/-- One invocation of any public adapter operation, with the values its
effects (clock, uuid, remote replies) produced. -/
inductive CourierOp
  | mockCreate (request : ShipmentRequest) (now : Nat) (nowStr hexFrag : String)
  | mockTrack (waybill : String) (now : Nat)
  | mockCancel (waybill reason : String) (now : Nat) (hexFrag8 : String)
  | mockLabel (waybill : String)
  | smsaCreate (smsa : SMSAState) (request : ShipmentRequest) (remote : SMSARemote)
  | smsaTrack (smsa : SMSAState) (waybill : String) (remote : Option String) (now : Nat)
  | smsaCancel (smsa : SMSAState) (waybill reason : String)
      (remote : SMSACourier.SMSACancelRemote)
  | smsaLabel (waybill : String)

/-- Effect of one operation on the instance state: the mock mutators
rewrite the shipment dict; no operation of either adapter ever writes
`is_initialized` (only `__init__` does). -/
def courierStep (st : CourierInstanceState) (op : CourierOp) :
    CourierInstanceState :=
  match op with
  | .mockCreate req now nowStr hexFrag =>
    { st with store := (MockCourier.create_shipment st.store req now nowStr hexFrag).2 }
  | .mockTrack _ _ => st
  | .mockCancel wb reason now hex8 =>
    { st with store := (MockCourier.cancel_shipment st.store wb reason now hex8).2 }
  | .mockLabel _ => st
  | .smsaCreate _ _ _ => st
  | .smsaTrack _ _ _ _ => st
  | .smsaCancel _ _ _ _ => st
  | .smsaLabel _ => st

/-! Concrete fixtures (field values follow the repository's own tests). -/

/-- A fully populated sender address. -/
def validSender : Address :=
  { name := "Sender", address_line1 := "Line 1", city := "Riyadh",
    country := "SA", phone := "123" }

/-- A fully populated recipient address. -/
def validRecipient : Address :=
  { name := "Recipient", address_line1 := "Line 1", city := "Jeddah",
    country := "SA", phone := "456" }

/-- A request that passes the shared base validation. -/
def validRequest : ShipmentRequest :=
  { reference_number := "REF123", sender := validSender,
    recipient := validRecipient,
    package := { weight := 10, description := "Test Package" } }

/-- The valid request with package weight zero. -/
def zeroWeightRequest : ShipmentRequest :=
  { validRequest with package := { weight := 0, description := "Test Package" } }

/-- The valid request with package weight 35. -/
def weight35Request : ShipmentRequest :=
  { validRequest with package := { weight := 35, description := "Test Package" } }

/-- The valid request with package weight 25. -/
def weight25Request : ShipmentRequest :=
  { validRequest with package := { weight := 25, description := "Test Package" } }

/-- An SMSA instance as produced by a successful construction. -/
def smsaReadyState : SMSAState :=
  { pass_key := "testing0",
    base_url := "https://track.smsaexpress.com/SECOM/SMSAwebService.asmx",
    is_initialized := true }

/-- The factory's state at import time: both built-in providers
registered, empty instance cache. -/
def factoryState0 : FactoryState :=
  { registry := CourierFactory.initialRegistry, instances := [], next_id := 0 }

/-- The factory state after one construction of MOCK. -/
def factoryStateOne : FactoryState :=
  { registry := CourierFactory.initialRegistry, instances := [("MOCK", 0)],
    next_id := 1 }

/-- A stored mock shipment used to seed a concrete store. -/
def storedEntry1 : StoredShipment :=
  { request := validRequest, status := UnifiedStatus.CREATED.value,
    created_at := 0,
    events := [{ timestamp := 0, status := UnifiedStatus.CREATED.value,
                 description := "Shipment created successfully",
                 location := "Riyadh" }] }

/-- A mock store holding one known waybill. -/
def store1 : MockStore := [("WB1", storedEntry1)]

/-- "All fields other than the package weight are present" (the premise of
the weight-focused validation clauses). -/
def otherFieldsValid (r : ShipmentRequest) : Prop :=
  r.reference_number ≠ "" ∧ r.sender.name ≠ "" ∧ r.sender.address_line1 ≠ "" ∧
  r.sender.city ≠ "" ∧ r.sender.country ≠ "" ∧ r.sender.phone ≠ "" ∧
  r.recipient.name ≠ "" ∧ r.recipient.address_line1 ≠ "" ∧
  r.recipient.city ≠ "" ∧ r.recipient.country ≠ "" ∧ r.recipient.phone ≠ "" ∧
  r.package.description ≠ ""

instance (r : ShipmentRequest) : Decidable (otherFieldsValid r) := by
  unfold otherFieldsValid; infer_instance

/-- The spec's ShipmentResponse invariant: non-empty waybill on success;
empty waybill and non-empty errors on failure. -/
def shipmentResponseInvariant (resp : ShipmentResponse) : Prop :=
  (resp.success = true → resp.waybill_number ≠ "") ∧
  (resp.success = false → resp.waybill_number = "" ∧ resp.errors ≠ [])

instance (resp : ShipmentResponse) : Decidable (shipmentResponseInvariant resp) := by
  unfold shipmentResponseInvariant; infer_instance

/-! Helper lemmas. -/

/-- Every member of the status enum is listed in `members`. -/
theorem UnifiedStatus.mem_members (u : UnifiedStatus) : u ∈ UnifiedStatus.members := by
  cases u <;> simp [UnifiedStatus.members]

/-- A generated mock waybill is never the empty string. -/
theorem waybillGen_ne_empty (nowStr hexFrag : String) :
    MockCourier.waybillGen nowStr hexFrag ≠ "" := by
  unfold MockCourier.waybillGen
  intro h
  have hlen := congrArg String.length h
  rw [String.length_append, String.length_append] at hlen
  have h4 : ("MOCK" : String).length = 4 := rfl
  have h0 : ("" : String).length = 0 := rfl
  omega

/-- A string contains its own suffix. -/
theorem strContains_append_right (a b : String) : strContains (a ++ b) b = true := by
  unfold strContains
  rw [decide_eq_true_iff]
  refine ⟨a.toList, [], ?_⟩
  simp [String.toList, String.data_append]

/-- Updating the entry at a key rewrites exactly what lookup sees there. -/
theorem lookup_storeUpdate (k : String) (f : StoredShipment → StoredShipment)
    (s : MockStore) : (storeUpdate k f s).lookup k = (s.lookup k).map f := by
  induction s with
  | nil => rfl
  | cons p t ih =>
    obtain ⟨a, v⟩ := p
    by_cases h : a = k
    · subst h
      show List.lookup a ((if a = a then (a, f v) else (a, v)) :: storeUpdate a f t) = _
      rw [if_pos rfl]
      simp [List.lookup]
    · show List.lookup k ((if a = k then (a, f v) else (a, v)) :: storeUpdate k f t) = _
      rw [if_neg h]
      have hbeq : (k == a) = false := beq_eq_false_iff_ne.mpr (fun hh => h hh.symm)
      simpa [List.lookup, hbeq] using ih

/-- One adapter operation never writes the readiness flag. -/
theorem courierStep_preserves_initialized (st : CourierInstanceState)
    (op : CourierOp) : (courierStep st op).is_initialized = st.is_initialized := by
  cases op <;> rfl

/-- On an initialized instance, SMSA `create_shipment` posts exactly one
addShipPDF request whatever the request and remote outcome are. -/
theorem smsa_create_always_posts (st : SMSAState) (r : ShipmentRequest)
    (remote : SMSARemote) (hinit : st.is_initialized = true) :
    (SMSACourier.create_shipment st r remote).toOption.map Prod.snd =
      some ["addShipPDF"] := by
  unfold SMSACourier.create_shipment
  rw [if_neg (by simp [hinit])]
  cases remote with
  | exn e => rfl
  | reply rt =>
    dsimp only
    split <;> rfl

/-! Claim theorems. -/

/-- C3: for every provider adapter and every input string, `map_status`
returns a member of UnifiedStatus (totality; it never raises), and input
matching no mapping entry yields EXCEPTION for MockCourier and the safe
default IN_TRANSIT for SMSACourier. -/
theorem map_status_total (raw : String) :
    MockCourier.map_status raw ∈ UnifiedStatus.members ∧
    SMSACourier.map_status raw ∈ UnifiedStatus.members ∧
    (UnifiedStatus.ofValue? (strUpper raw) = none →
      MockCourier.map_status raw = UnifiedStatus.EXCEPTION) ∧
    ((∀ kv ∈ SMSACourier.STATUS_MAP,
        strContains (strLower raw) (strLower kv.1) = false) →
      SMSACourier.map_status raw = UnifiedStatus.IN_TRANSIT) := by
  refine ⟨UnifiedStatus.mem_members _, UnifiedStatus.mem_members _, ?_, ?_⟩
  · intro h
    unfold MockCourier.map_status
    rw [h]
  · intro h
    unfold SMSACourier.map_status
    have hnone : SMSACourier.STATUS_MAP.find?
        (fun kv => strContains (strLower raw) (strLower kv.1)) = none := by
      apply List.find?_eq_none.mpr
      intro kv hkv
      simp [h kv hkv]
    rw [hnone]

/-- Witness for C3: both fallbacks observed on the empty string and on a
garbage input. -/
theorem map_status_total_witness :
    MockCourier.map_status "" = UnifiedStatus.EXCEPTION ∧
    SMSACourier.map_status "" = UnifiedStatus.IN_TRANSIT ∧
    MockCourier.map_status "zz" = UnifiedStatus.EXCEPTION ∧
    SMSACourier.map_status "zz" = UnifiedStatus.IN_TRANSIT :=
  ⟨(map_status_total "").2.2.1 (by decide),
   (map_status_total "").2.2.2 (by decide),
   (map_status_total "zz").2.2.1 (by decide),
   (map_status_total "zz").2.2.2 (by decide)⟩

/-- C4: for every request missing one of sender name/phone, recipient
name/phone, positive weight or description, the shared validation output
contains a message attributable to that field; and a request with weight
zero and every other field valid yields exactly the one weight error. -/
theorem validate_shipment_request_completeness (r : ShipmentRequest) :
    (r.sender.name = "" →
      "Sender name is required" ∈ CourierBase.validate_shipment_request r) ∧
    (r.sender.phone = "" →
      "Sender phone is required" ∈ CourierBase.validate_shipment_request r) ∧
    (r.recipient.name = "" →
      "Recipient name is required" ∈ CourierBase.validate_shipment_request r) ∧
    (r.recipient.phone = "" →
      "Recipient phone is required" ∈ CourierBase.validate_shipment_request r) ∧
    (r.package.weight ≤ 0 →
      "Package weight must be greater than 0" ∈ CourierBase.validate_shipment_request r) ∧
    (r.package.description = "" →
      "Package description is required" ∈ CourierBase.validate_shipment_request r) ∧
    (otherFieldsValid r → r.package.weight = 0 →
      CourierBase.validate_shipment_request r =
        ["Package weight must be greater than 0"]) := by
  refine ⟨?_, ?_, ?_, ?_, ?_, ?_, ?_⟩
  · intro h; simp [CourierBase.validate_shipment_request, h]
  · intro h; simp [CourierBase.validate_shipment_request, h]
  · intro h; simp [CourierBase.validate_shipment_request, h]
  · intro h; simp [CourierBase.validate_shipment_request, h]
  · intro h; simp [CourierBase.validate_shipment_request, h]
  · intro h; simp [CourierBase.validate_shipment_request, h]
  · intro hv hw
    obtain ⟨h1, h2, h3, h4, h5, h6, h7, h8, h9, h10, h11, h12⟩ := hv
    simp [CourierBase.validate_shipment_request, h1, h2, h3, h4, h5, h6,
      h7, h8, h9, h10, h11, h12, hw]

/-- Witness for C4: the zero-weight, otherwise-valid request yields
exactly the weight error. -/
theorem validate_shipment_request_completeness_witness :
    CourierBase.validate_shipment_request zeroWeightRequest =
      ["Package weight must be greater than 0"] :=
  (validate_shipment_request_completeness zeroWeightRequest).2.2.2.2.2.2
    (by decide) (by decide)

/-- C2 counterexample: the otherwise-valid request with package weight 35
passes SMSA validation with no errors at all — there is no weight-limit
message, refuting the claimed 30-unit maximum. -/
theorem smsa_weight35_passes_validation_cex :
    weight35Request.package.weight = 35 ∧
    otherFieldsValid weight35Request ∧
    SMSACourier.validate_shipment_request weight35Request = [] := by
  refine ⟨rfl, by decide, by decide⟩

/-- C2 amended: SMSACourier does not override `validate_shipment_request`;
it applies exactly the shared base rules and enforces no provider-specific
weight limit, so every otherwise-valid request with positive weight
(weight 35 as much as weight 25) validates with no errors. -/
theorem smsa_validate_inherits_base (r : ShipmentRequest)
    (hvalid : otherFieldsValid r) (hw : 0 < r.package.weight) :
    SMSACourier.validate_shipment_request r =
      CourierBase.validate_shipment_request r ∧
    SMSACourier.validate_shipment_request r = [] := by
  refine ⟨rfl, ?_⟩
  obtain ⟨h1, h2, h3, h4, h5, h6, h7, h8, h9, h10, h11, h12⟩ := hvalid
  have hne : r.package.weight ≠ 0 := ne_of_gt hw
  have hnle : ¬ r.package.weight ≤ 0 := not_le.mpr hw
  simp [SMSACourier.validate_shipment_request,
    CourierBase.validate_shipment_request, h1, h2, h3, h4, h5, h6, h7, h8,
    h9, h10, h11, h12, hne, hnle]

/-- Witness for C2 amended: weights 35 and 25 both pass SMSA validation. -/
theorem smsa_validate_inherits_base_witness :
    SMSACourier.validate_shipment_request weight35Request = [] ∧
    SMSACourier.validate_shipment_request weight25Request = [] :=
  ⟨(smsa_validate_inherits_base weight35Request (by decide) (by decide)).2,
   (smsa_validate_inherits_base weight25Request (by decide) (by decide)).2⟩

/-- C9 counterexample: SMSA `print_label` returns success=True with an
empty error list (not the claimed success=false with an explanatory
error). -/
theorem smsa_print_label_success_cex :
    (SMSACourier.print_label "123").success = true ∧
    (SMSACourier.print_label "123").errors = [] :=
  ⟨rfl, rfl⟩

/-- C9 amended: for every waybill, SMSA `print_label` never raises and
returns success=True with empty errors and the constructed public label
URL (smsa.py treats labels as public URLs rather than an unsupported
operation). -/
theorem smsa_print_label_always_succeeds (waybill_number : String) :
    (SMSACourier.print_label waybill_number).success = true ∧
    (SMSACourier.print_label waybill_number).errors = [] ∧
    (SMSACourier.print_label waybill_number).label_url =
      "https://track.smsaexpress.com/getPDF.aspx?awb=" ++ waybill_number :=
  ⟨rfl, rfl, rfl⟩

/-- C1 counterexample: the zero-weight request fails the shared
validation, yet SMSA `create_shipment` still posts the addShipPDF request
(the wire list is non-empty) and, when the remote replies with a waybill,
returns success=True — refuting both the claimed success=false response
and the claimed absence of a remote call. -/
theorem smsa_create_skips_validation_cex :
    CourierBase.validate_shipment_request zeroWeightRequest ≠ [] ∧
    (SMSACourier.create_shipment smsaReadyState zeroWeightRequest
        (SMSARemote.reply (some "290000001"))).toOption.map
      (fun p => (p.1.success, p.2.isEmpty)) = some (true, false) :=
  ⟨by decide, by decide⟩

/-- C1 amended: only MockCourier implements the claimed behavior — on a
validation failure it returns success=false carrying the validation
errors, stores nothing and contacts no remote system. SMSACourier's
`create_shipment` performs no business validation: on an initialized
instance it always posts the addShipPDF request to the remote system,
whatever the request's validity. -/
theorem create_shipment_validation_behavior
    (store : MockStore) (r : ShipmentRequest) (now : Nat)
    (nowStr hexFrag : String) (st : SMSAState) (remote : SMSARemote)
    (hinit : st.is_initialized = true)
    (herr : CourierBase.validate_shipment_request r ≠ []) :
    (MockCourier.create_shipment store r now nowStr hexFrag).1.success = false ∧
    (MockCourier.create_shipment store r now nowStr hexFrag).1.errors =
      CourierBase.validate_shipment_request r ∧
    (MockCourier.create_shipment store r now nowStr hexFrag).2 = store ∧
    (SMSACourier.create_shipment st r remote).toOption.map Prod.snd =
      some ["addShipPDF"] := by
  refine ⟨?_, ?_, ?_, smsa_create_always_posts st r remote hinit⟩
  · simp [MockCourier.create_shipment, herr]
  · simp [MockCourier.create_shipment, herr]
  · simp [MockCourier.create_shipment, herr]

/-- Witness for C1 amended at the concrete zero-weight request. -/
theorem create_shipment_validation_behavior_witness :
    (MockCourier.create_shipment [] zeroWeightRequest 0 "X" "ab").1.success = false ∧
    (MockCourier.create_shipment [] zeroWeightRequest 0 "X" "ab").1.errors =
      CourierBase.validate_shipment_request zeroWeightRequest ∧
    (MockCourier.create_shipment [] zeroWeightRequest 0 "X" "ab").2 = [] ∧
    (SMSACourier.create_shipment smsaReadyState zeroWeightRequest
        (SMSARemote.reply none)).toOption.map Prod.snd =
      some ["addShipPDF"] :=
  create_shipment_validation_behavior [] zeroWeightRequest 0 "X" "ab"
    smsaReadyState (SMSARemote.reply none) rfl (by decide)

/-- C5: on the simulation adapter a valid request creates successfully
with a non-empty waybill, and tracking that waybill afterwards reports
success with status CREATED and exactly one recorded event. -/
theorem mock_create_track_roundtrip
    (store : MockStore) (r : ShipmentRequest) (now now2 : Nat)
    (nowStr hexFrag : String)
    (hvalid : CourierBase.validate_shipment_request r = []) :
    (MockCourier.create_shipment store r now nowStr hexFrag).1.success = true ∧
    (MockCourier.create_shipment store r now nowStr hexFrag).1.waybill_number ≠ "" ∧
    (MockCourier.track_shipment
        (MockCourier.create_shipment store r now nowStr hexFrag).2
        (MockCourier.create_shipment store r now nowStr hexFrag).1.waybill_number
        now2).success = true ∧
    (MockCourier.track_shipment
        (MockCourier.create_shipment store r now nowStr hexFrag).2
        (MockCourier.create_shipment store r now nowStr hexFrag).1.waybill_number
        now2).status = UnifiedStatus.CREATED.value ∧
    (MockCourier.track_shipment
        (MockCourier.create_shipment store r now nowStr hexFrag).2
        (MockCourier.create_shipment store r now nowStr hexFrag).1.waybill_number
        now2).events.length = 1 := by
  have hif : ¬ (CourierBase.validate_shipment_request r ≠ []) := by
    simp [hvalid]
  unfold MockCourier.create_shipment
  rw [if_neg hif]
  refine ⟨rfl, waybillGen_ne_empty nowStr hexFrag, ?_, ?_, ?_⟩ <;>
    simp [MockCourier.track_shipment, storeInsert, List.lookup]

/-- Witness for C5 at the repository's own valid test request. -/
theorem mock_create_track_roundtrip_witness :
    (MockCourier.create_shipment [] validRequest 0 "X" "ab").1.success = true ∧
    (MockCourier.create_shipment [] validRequest 0 "X" "ab").1.waybill_number ≠ "" ∧
    (MockCourier.track_shipment
        (MockCourier.create_shipment [] validRequest 0 "X" "ab").2
        (MockCourier.create_shipment [] validRequest 0 "X" "ab").1.waybill_number
        1).success = true ∧
    (MockCourier.track_shipment
        (MockCourier.create_shipment [] validRequest 0 "X" "ab").2
        (MockCourier.create_shipment [] validRequest 0 "X" "ab").1.waybill_number
        1).status = UnifiedStatus.CREATED.value ∧
    (MockCourier.track_shipment
        (MockCourier.create_shipment [] validRequest 0 "X" "ab").2
        (MockCourier.create_shipment [] validRequest 0 "X" "ab").1.waybill_number
        1).events.length = 1 :=
  mock_create_track_roundtrip [] validRequest 0 1 "X" "ab" (by decide)

/-- C6: on the simulation adapter, cancelling a known waybill succeeds,
and tracking it afterwards reports status CANCELLED with a final event
whose description contains the supplied reason (or the default phrase
when the reason is empty). -/
theorem mock_cancel_track_effect
    (store : MockStore) (wb reason : String) (now now2 : Nat)
    (hex8 : String) (hknown : (store.lookup wb).isSome = true) :
    (MockCourier.cancel_shipment store wb reason now hex8).1.success = true ∧
    (MockCourier.track_shipment
        (MockCourier.cancel_shipment store wb reason now hex8).2 wb
        now2).status = UnifiedStatus.CANCELLED.value ∧
    ((MockCourier.track_shipment
        (MockCourier.cancel_shipment store wb reason now hex8).2 wb
        now2).events.getLast?.map
      (fun e => strContains e.description
        (if reason = "" then "No reason provided" else reason))) = some true := by
  obtain ⟨entry, hentry⟩ := Option.isSome_iff_exists.mp hknown
  have hstore : (MockCourier.cancel_shipment store wb reason now hex8).2 =
      storeUpdate wb (MockCourier.cancelUpdate reason now) store := by
    simp [MockCourier.cancel_shipment, hknown]
  have hlook : (storeUpdate wb (MockCourier.cancelUpdate reason now) store).lookup wb =
      some (MockCourier.cancelUpdate reason now entry) := by
    rw [lookup_storeUpdate, hentry]; rfl
  refine ⟨rfl, ?_, ?_⟩
  · rw [hstore]
    simp [MockCourier.track_shipment, hlook, MockCourier.cancelUpdate]
  · rw [hstore]
    simp only [MockCourier.track_shipment, hlook, MockCourier.cancelUpdate,
      List.map_append, List.map_cons, List.map_nil]
    rw [List.getLast?_concat]
    simp [strContains_append_right]

/-- Witness for C6 on a one-entry store, with a non-empty reason. -/
theorem mock_cancel_track_effect_witness :
    (MockCourier.cancel_shipment store1 "WB1" "Customer request" 5 "abcd1234").1.success = true ∧
    (MockCourier.track_shipment
        (MockCourier.cancel_shipment store1 "WB1" "Customer request" 5 "abcd1234").2 "WB1"
        6).status = UnifiedStatus.CANCELLED.value ∧
    ((MockCourier.track_shipment
        (MockCourier.cancel_shipment store1 "WB1" "Customer request" 5 "abcd1234").2 "WB1"
        6).events.getLast?.map
      (fun e => strContains e.description
        (if "Customer request" = "" then "No reason provided"
         else "Customer request"))) = some true :=
  mock_cancel_track_effect store1 "WB1" "Customer request" 5 6 "abcd1234"
    (by decide)

/-- C7: every ShipmentResponse produced by either adapter's
`create_shipment` satisfies the invariant: non-empty waybill on success,
empty waybill with non-empty errors on failure. -/
theorem create_shipment_response_invariant_holds
    (store : MockStore) (r : ShipmentRequest) (now : Nat)
    (nowStr hexFrag : String) (st : SMSAState) (remote : SMSARemote) :
    shipmentResponseInvariant
      (MockCourier.create_shipment store r now nowStr hexFrag).1 ∧
    (∀ resp wire,
      SMSACourier.create_shipment st r remote = .ok (resp, wire) →
      shipmentResponseInvariant resp) := by
  constructor
  · by_cases herr : CourierBase.validate_shipment_request r = []
    · refine ⟨fun _ => ?_, fun hfalse => ?_⟩
      · simpa [MockCourier.create_shipment, herr] using
          waybillGen_ne_empty nowStr hexFrag
      · simp [MockCourier.create_shipment, herr] at hfalse
    · refine ⟨fun htrue => ?_, fun _ => ⟨?_, ?_⟩⟩
      · simp [MockCourier.create_shipment, herr] at htrue
      · simp [MockCourier.create_shipment, herr]
      · simp [MockCourier.create_shipment, herr]
  · intro resp wire h
    unfold SMSACourier.create_shipment at h
    by_cases hb : st.is_initialized = true
    · rw [if_neg (by simp [hb])] at h
      cases remote with
      | exn e =>
        simp only [Except.ok.injEq, Prod.mk.injEq] at h
        obtain ⟨hresp, -⟩ := h
        rw [← hresp]
        exact ⟨fun htrue => by simp at htrue, fun _ => ⟨rfl, by simp⟩⟩
      | reply rt =>
        dsimp only at h
        cases rt with
        | none =>
          rw [if_pos (by simp)] at h
          simp only [Except.ok.injEq, Prod.mk.injEq] at h
          obtain ⟨hresp, -⟩ := h
          rw [← hresp]
          exact ⟨fun htrue => by simp at htrue, fun _ => ⟨rfl, by simp⟩⟩
        | some t =>
          by_cases hfail : t = "" ∨ strContains t "Failed"
          · rw [if_pos (by simpa using hfail)] at h
            simp only [Except.ok.injEq, Prod.mk.injEq] at h
            obtain ⟨hresp, -⟩ := h
            rw [← hresp]
            exact ⟨fun htrue => by simp at htrue, fun _ => ⟨rfl, by simp⟩⟩
          · rw [if_neg (by simpa using hfail)] at h
            simp only [Except.ok.injEq, Prod.mk.injEq] at h
            obtain ⟨hresp, -⟩ := h
            rw [← hresp]
            refine ⟨fun _ => ?_, fun hfalse => by simp at hfalse⟩
            have ht : t ≠ "" := fun hh => hfail (Or.inl hh)
            simpa using ht
    · rw [if_pos (by simp [hb])] at h
      exact absurd h (by simp)

/-- The concrete successful SMSA response used by the C7 witness. -/
def smsaOkResponse : ShipmentResponse :=
  { success := true
    waybill_number := "290000001"
    tracking_number := "290000001"
    reference_number := "REF123"
    courier_provider := "SMSA"
    cost := 0
    currency := "SAR"
    label_url := "https://track.smsaexpress.com/getPDF.aspx?awb=290000001"
    label_data := "" }

/-- Witness for C7 on both adapters at concrete inputs. -/
theorem create_shipment_response_invariant_holds_witness :
    shipmentResponseInvariant
      (MockCourier.create_shipment [] validRequest 0 "X" "ab").1 ∧
    shipmentResponseInvariant smsaOkResponse :=
  ⟨(create_shipment_response_invariant_holds [] validRequest 0 "X" "ab"
      smsaReadyState (SMSARemote.reply (some "290000001"))).1,
   (create_shipment_response_invariant_holds [] validRequest 0 "X" "ab"
      smsaReadyState (SMSARemote.reply (some "290000001"))).2
     smsaOkResponse ["addShipPDF"] rfl⟩

/-- C8: whenever a no-override `get_courier` call resolves (from cache or
by construction), an immediately following no-override call — under any
case spelling of the same identifier — returns the same instance token
and leaves the factory state (cache and construction counter) unchanged:
no second construction happens. -/
theorem get_courier_idempotent
    (st : FactoryState) (p q : String) (inst : Nat) (st1 : FactoryState)
    (hcase : strUpper q = strUpper p)
    (hfirst : CourierFactory.get_courier st p none = .ok (inst, st1)) :
    CourierFactory.get_courier st1 q none = .ok (inst, st1) := by
  simp only [CourierFactory.get_courier] at hfirst ⊢
  rw [hcase]
  cases hl : st.instances.lookup (strUpper p) with
  | some i =>
    rw [hl] at hfirst
    simp only [Except.ok.injEq, Prod.mk.injEq] at hfirst
    obtain ⟨hi, hst⟩ := hfirst
    subst hi
    subst hst
    rw [hl]
  | none =>
    rw [hl] at hfirst
    by_cases hreg : strUpper p ∈ st.registry
    · simp only [hreg, if_true, Except.ok.injEq, Prod.mk.injEq] at hfirst
      obtain ⟨hi, hst⟩ := hfirst
      subst hi
      subst hst
      simp [List.lookup]
    · simp [hreg] at hfirst

/-- Witness for C8: resolving "mock" then "MOCK" on the import-time state
returns token 0 twice with the state unchanged after the first call. -/
theorem get_courier_idempotent_witness :
    CourierFactory.get_courier factoryStateOne "MOCK" none =
      Except.ok (0, factoryStateOne) :=
  get_courier_idempotent factoryState0 "mock" "MOCK" 0 factoryStateOne rfl rfl

/-- C10: an instance whose construction returned normally has
is_initialized true, every operation sequence preserves it, and the
not-ready RuntimeError branch of `_ensure_initialized` is therefore
unreachable on any successfully constructed instance. -/
theorem initialized_forever
    (validate : List (String × String) → Except String Unit)
    (config : List (String × String)) (inst : CourierInstanceState)
    (hmk : CourierBase.construct validate config = .ok inst)
    (ops : List CourierOp) :
    (ops.foldl courierStep inst).is_initialized = true ∧
    CourierBase.ensure_initialized (ops.foldl courierStep inst) = .ok () := by
  have hinit : inst.is_initialized = true := by
    unfold CourierBase.construct at hmk
    cases hv : validate config with
    | error e => rw [hv] at hmk; exact absurd hmk (by simp)
    | ok u =>
      rw [hv] at hmk
      simp only [Except.ok.injEq] at hmk
      rw [← hmk]
  have hfold : ∀ (l : List CourierOp) (s : CourierInstanceState),
      (l.foldl courierStep s).is_initialized = s.is_initialized := by
    intro l
    induction l with
    | nil => intro s; rfl
    | cons op t ih =>
      intro s
      rw [List.foldl_cons, ih, courierStep_preserves_initialized]
  have h1 : (ops.foldl courierStep inst).is_initialized = true := by
    rw [hfold, hinit]
  refine ⟨h1, ?_⟩
  simp [CourierBase.ensure_initialized, h1]

/-- Witness for C10: a mock instance constructed from the empty config,
run through one operation. -/
theorem initialized_forever_witness :
    (([CourierOp.mockLabel "X"]).foldl courierStep
        { is_initialized := true, store := [] }).is_initialized = true ∧
    CourierBase.ensure_initialized
        (([CourierOp.mockLabel "X"]).foldl courierStep
          { is_initialized := true, store := [] }) = .ok () :=
  initialized_forever CourierBase.mock_validate_config []
    { is_initialized := true, store := [] } rfl [CourierOp.mockLabel "X"]

end Zid
